import Mathlib

/-!
Verification of the quota policy resolution and enforcement decision engine.

Shallow embedding of:
* `deployment/infrastructure/lambda-functions/quota_check/index.py`
  (the real-time decision path: `lambda_handler`, `resolve_quota_for_user`,
  `get_policy`, `get_unblock_status`, `get_user_usage`), and
* `source/claude_code_with_bedrock/quota_policies.py`
  (policy administration: `QuotaPolicyManager`).

Modelling conventions:
* DynamoDB reads are passed in as fetch functions/values.  A fetch result is
  `Except String (Option item)`: `.error` models a raised store exception
  (e.g. an unreachable table), `.ok none` a missing item, `.ok (some it)` a
  found item.  The admin-side table is a pure map `String → Option rec`
  keyed by the partition key (the sort key is the constant `"CURRENT"` for
  every policy record, so it is elided from the key).
* Python numbers: token counts and costs flow through `float(...)` in the
  source; they are modelled as `ℚ` (exact for the integral token counts and
  decimal costs that occur; IEEE rounding is not modelled).  Integer limits
  are `Int`.
* `datetime` values are modelled as already-parsed data: the current UTC
  date is an opaque `String` (only compared for equality, exactly as the
  source compares `daily_date != current_date`), and override expiry
  timestamps are `Int` instants compared with `now` (the source parses ISO
  strings and compares `datetime` values).
* Presentation-only output (CORS headers, the human-readable `message`
  string, the usage-summary echo with rounded percentages, the policy echo)
  is omitted from the modelled response; no decision logic reads it.
-/

namespace Quota

/-- A raw policy item as stored in the `QuotaPolicies` table.  Every field is
optional, mirroring `item.get(...)` dictionary access in the source. -/
structure PolicyItem where
  policy_type : Option String
  identifier : Option String
  monthly_token_limit : Option Int
  daily_token_limit : Option Int
  monthly_cost_limit : Option ℚ
  warning_threshold_80 : Option Int
  warning_threshold_90 : Option Int
  enforcement_mode : Option String
  enabled : Option Bool
deriving DecidableEq, Repr

/-- A normalized policy as returned by the quota-check Lambda's `get_policy`
(the dict it builds from a raw item, with the source's defaults applied). -/
structure Policy where
  policy_type : Option String
  identifier : Option String
  monthly_token_limit : Int
  daily_token_limit : Option Int
  monthly_cost_limit : Option ℚ
  warning_threshold_80 : Int
  warning_threshold_90 : Int
  enforcement_mode : String
  enabled : Bool
deriving DecidableEq, Repr

/-- Function `get_policy` from `quota_check/index.py`.  Builds the partition key,
fetches, and normalizes the item.  A store error is caught inside the
function and converted to `None` (`except Exception ... return None`).
`int(item.get("daily_token_limit", 0)) if item.get("daily_token_limit") else
None` maps a missing or zero (falsy) raw value to `none`; likewise for the
cost limit. -/
def get_policy (fetch : String → Except String (Option PolicyItem))
    (policy_type identifier : String) : Option Policy :=
  let pk := "POLICY#" ++ policy_type ++ "#" ++ identifier
  match fetch pk with
  | .error _ => none
  | .ok none => none
  | .ok (some item) =>
      some
        { policy_type := item.policy_type
          identifier := item.identifier
          monthly_token_limit := item.monthly_token_limit.getD 0
          daily_token_limit :=
            match item.daily_token_limit with
            | none => none
            | some v => if v = 0 then none else some v
          monthly_cost_limit :=
            match item.monthly_cost_limit with
            | none => none
            | some v => if v = 0 then none else some v
          warning_threshold_80 := item.warning_threshold_80.getD 0
          warning_threshold_90 := item.warning_threshold_90.getD 0
          enforcement_mode := item.enforcement_mode.getD "alert"
          enabled := item.enabled.getD true }

/-- Python's `min(group_policies, key=lambda p: p.get("monthly_token_limit",
float("inf")))`: left-to-right scan keeping the earlier element on ties
(`min` replaces the current best only on a strictly smaller key; the key is
always present on policies built by `get_policy`, so the `inf` default is
unreachable). -/
def most_restrictive : Policy → List Policy → Policy
  | p, [] => p
  | p, q :: qs =>
      most_restrictive (if q.monthly_token_limit < p.monthly_token_limit then q else p) qs

/-- The `group_policies` list built by the resolver's loop: for each group in
order, fetch the group policy and keep it if present and enabled. -/
def group_policies (fetch : String → Except String (Option PolicyItem))
    (groups : List String) : List Policy :=
  (groups.filterMap (fun g => get_policy fetch "group" g)).filter (fun p => p.enabled)

/-- Steps 2–4 of `resolve_quota_for_user` (reached when there is no enabled
user-specific policy): most restrictive enabled group policy, else enabled
default policy, else `None`.  An empty `groups` list yields no group
policies, matching the source's `if groups:` guard. -/
def resolve_without_user (fetch : String → Except String (Option PolicyItem))
    (groups : List String) : Option Policy :=
  match group_policies fetch groups with
  | g :: gs => some (most_restrictive g gs)
  | [] =>
      match get_policy fetch "default" "default" with
      | some p => if p.enabled then some p else none
      | none => none

/-- Function `resolve_quota_for_user` from `quota_check/index.py`.  Precedence:
user-specific > group (most restrictive) > default; `None` = unlimited.
`user_policy.get("enabled", True)` is `p.enabled` (the key is always present
on policies built by `get_policy`). -/
def resolve_quota_for_user (fetch : String → Except String (Option PolicyItem))
    (email : String) (groups : List String) : Option Policy :=
  match get_policy fetch "user" email with
  | some p => if p.enabled then some p else resolve_without_user fetch groups
  | none => resolve_without_user fetch groups

/-- A raw usage item from the `UserQuotaMetrics` table (monthly record). -/
structure UsageItem where
  total_tokens : Option ℚ
  daily_tokens : Option ℚ
  daily_date : Option String
  input_tokens : Option ℚ
  output_tokens : Option ℚ
  cache_tokens : Option ℚ
  estimated_cost : Option ℚ
deriving DecidableEq, Repr

/-- The normalized usage record returned by `get_user_usage`. -/
structure Usage where
  total_tokens : ℚ
  daily_tokens : ℚ
  daily_date : Option String
  input_tokens : ℚ
  output_tokens : ℚ
  cache_tokens : ℚ
  estimated_cost : ℚ
deriving DecidableEq, Repr

/-- The zero-valued record `get_user_usage` synthesizes when no current-month
item exists (and also on a caught store error). -/
def zero_usage (current_date : String) : Usage :=
  { total_tokens := 0
    daily_tokens := 0
    daily_date := some current_date
    input_tokens := 0
    output_tokens := 0
    cache_tokens := 0
    estimated_cost := 0 }

/-- Function `get_user_usage` from `quota_check/index.py`.  A pure function of the
fetched current-month item (the source only ever calls `get_item`; it never
writes).  Lazy daily rollover: if the stored `daily_date` differs from the
current UTC date, `daily_tokens` is treated as 0 for this read, without
mutating the record.  Store errors are caught inside and yield the zero
record. -/
def get_user_usage (fetch : Except String (Option UsageItem))
    (current_date : String) : Usage :=
  match fetch with
  | .error _ => zero_usage current_date
  | .ok none => zero_usage current_date
  | .ok (some item) =>
      let daily_date := item.daily_date
      let daily_tokens :=
        if daily_date ≠ some current_date then 0 else item.daily_tokens.getD 0
      { total_tokens := item.total_tokens.getD 0
        daily_tokens := daily_tokens
        daily_date := daily_date
        input_tokens := item.input_tokens.getD 0
        output_tokens := item.output_tokens.getD 0
        cache_tokens := item.cache_tokens.getD 0
        estimated_cost := item.estimated_cost.getD 0 }

/-- A raw unblock-override item (`sk = "UNBLOCK#CURRENT"`).  `expires_at` is
the parsed UTC expiry instant (the source stores an ISO string and parses it
with `datetime.fromisoformat`). -/
structure UnblockItem where
  expires_at : Option Int
  unblocked_by : Option String
  unblocked_at : Option String
  reason : Option String
  duration_type : Option String
deriving DecidableEq, Repr

/-- The status dict returned by `get_unblock_status`; absent dict keys are
`none`. -/
structure UnblockStatus where
  is_unblocked : Bool
  expired : Option Bool := none
  expires_at : Option Int := none
  unblocked_by : Option String := none
  unblocked_at : Option String := none
  reason : Option String := none
  duration_type : Option String := none
  error : Option String := none
deriving DecidableEq, Repr

/-- Function `get_unblock_status` from `quota_check/index.py`.  No record →
not unblocked.  A record whose `expires_at` is set and in the past
(`now > expires_dt`) → not unblocked, `expired = true`.  Otherwise —
including a record with no `expires_at` at all — unblocked, with the grant's
metadata.  A store error is caught inside and yields
`{is_unblocked: false, error: ...}`. -/
def get_unblock_status (fetch : Except String (Option UnblockItem))
    (now : Int) : UnblockStatus :=
  match fetch with
  | .error e => { is_unblocked := false, error := some e }
  | .ok none => { is_unblocked := false }
  | .ok (some item) =>
      if (match item.expires_at with
          | some expires_dt => decide (now > expires_dt)
          | none => false) then
        { is_unblocked := false, expired := some true }
      else
        { is_unblocked := true
          expires_at := item.expires_at
          unblocked_by := item.unblocked_by
          unblocked_at := item.unblocked_at
          reason := item.reason
          duration_type := item.duration_type }

/-- The decision-relevant part of the Lambda's JSON response (status code,
`allowed`, `reason`, `enforcement_mode`; presentation-only fields omitted,
see the file header). -/
structure QuotaResponse where
  statusCode : Nat
  allowed : Bool
  reason : String
  enforcement_mode : Option String
deriving DecidableEq, Repr

/-- The monthly limit check of step 5:
`monthly_limit > 0 and monthly_tokens >= monthly_limit`. -/
def monthly_breached (monthly_limit : Int) (monthly_tokens : ℚ) : Bool :=
  decide (monthly_limit > 0) && decide (monthly_tokens ≥ (monthly_limit : ℚ))

/-- The daily limit check of step 5:
`daily_limit and daily_limit > 0 and daily_tokens >= daily_limit` —
a missing (`None`) or zero limit is falsy and skips the check. -/
def daily_breached (daily_limit : Option Int) (daily_tokens : ℚ) : Bool :=
  match daily_limit with
  | none => false
  | some d => decide (d ≠ 0) && decide (d > 0) && decide (daily_tokens ≥ (d : ℚ))

/-- The cost limit check of step 5:
`cost_limit and cost_limit > 0 and estimated_cost >= float(cost_limit)`. -/
def cost_breached (cost_limit : Option ℚ) (estimated_cost : ℚ) : Bool :=
  match cost_limit with
  | none => false
  | some c => decide (c ≠ 0) && decide (c > 0) && decide (estimated_cost ≥ c)

/-- Steps 2–5 of `lambda_handler` (reached when a policy resolved): unblock
override short-circuit, alert-mode short-circuit, then the three limit
checks in the source's fixed order.  `policy.get("enforcement_mode",
"alert")` is `policy.enforcement_mode` (the key is always present on
policies built by `get_policy`). -/
def decide_with_policy (policy : Policy) (unblock_status : UnblockStatus)
    (usage : Usage) : QuotaResponse :=
  if unblock_status.is_unblocked then
    { statusCode := 200, allowed := true, reason := "unblocked",
      enforcement_mode := some policy.enforcement_mode }
  else if policy.enforcement_mode ≠ "block" then
    { statusCode := 200, allowed := true, reason := "within_quota",
      enforcement_mode := some policy.enforcement_mode }
  else if monthly_breached policy.monthly_token_limit usage.total_tokens then
    { statusCode := 200, allowed := false, reason := "monthly_exceeded",
      enforcement_mode := some policy.enforcement_mode }
  else if daily_breached policy.daily_token_limit usage.daily_tokens then
    { statusCode := 200, allowed := false, reason := "daily_exceeded",
      enforcement_mode := some policy.enforcement_mode }
  else if cost_breached policy.monthly_cost_limit usage.estimated_cost then
    { statusCode := 200, allowed := false, reason := "cost_exceeded",
      enforcement_mode := some policy.enforcement_mode }
  else
    { statusCode := 200, allowed := true, reason := "within_quota",
      enforcement_mode := some policy.enforcement_mode }

/-- Function `lambda_handler` from `quota_check/index.py` (the decision engine
`decide()`).  `email = ""` models a missing `email` query parameter
(`if not email`); `groups` is the already-split group list.  The source
wraps this body in a top-level `try/except` that returns
`allowed=true, reason="check_failed"`; every store access inside the body is
performed by `get_policy` / `get_unblock_status` / `get_user_usage`, each of
which catches its own errors (modelled by their `.error` branches), so no
store failure reaches that top-level handler and it is not represented
here. -/
def lambda_handler (policyFetch : String → Except String (Option PolicyItem))
    (usageFetch : Except String (Option UsageItem))
    (overrideFetch : Except String (Option UnblockItem))
    (email : String) (groups : List String)
    (now : Int) (current_date : String) : QuotaResponse :=
  if email = "" then
    { statusCode := 400, allowed := true, reason := "invalid_request",
      enforcement_mode := none }
  else
    match resolve_quota_for_user policyFetch email groups with
    | none =>
        { statusCode := 200, allowed := true, reason := "no_policy",
          enforcement_mode := none }
    | some policy =>
        decide_with_policy policy (get_unblock_status overrideFetch now)
          (get_user_usage usageFetch current_date)

/-! ## Policy administration (`quota_policies.py`, `QuotaPolicyManager`) -/

/-- Type `PolicyType` (from the `models` module; its three `.value` strings appear
in the partition keys built by `_make_pk`). -/
inductive PolicyType
  | user
  | group
  | default
deriving DecidableEq, Repr

/-- The `.value` string of a `PolicyType`. -/
def PolicyType.value : PolicyType → String
  | .user => "user"
  | .group => "group"
  | .default => "default"

/-- The closed error taxonomy of the administration API:
`PolicyNotFoundError`, `PolicyAlreadyExistsError`, `ValidationError` (raised
by the policy model's validation), and `QuotaPolicyError` for other backend
failures. -/
inductive AdminError
  | policyNotFound (msg : String)
  | policyAlreadyExists (msg : String)
  | validationError (msg : String)
  | quotaPolicyError (msg : String)
deriving DecidableEq, Repr

/-- A `QuotaPolicy` record as managed by `QuotaPolicyManager`
(`to_dynamodb_item` / `from_dynamodb_item` are modelled as the identity, so
the stored item and the typed record coincide). -/
structure QuotaPolicyRec where
  policy_type : PolicyType
  identifier : String
  monthly_token_limit : Int
  daily_token_limit : Option Int
  monthly_cost_limit : Option ℚ
  warning_threshold_80 : Int
  warning_threshold_90 : Int
  enforcement_mode : String
  enabled : Bool
  created_at : String
  updated_at : String
  created_by : Option String
deriving DecidableEq, Repr

/-- The `QuotaPolicies` table, as a map from partition key to the current
record (the sort key is the constant `"CURRENT"` for every policy record and
is elided). -/
def PolicyTable : Type := String → Option QuotaPolicyRec

/-- Key builder `_make_pk`: `f"POLICY#{policy_type.value}#{identifier}"`.  It applies no
normalization to the identifier. -/
def make_pk (policy_type : PolicyType) (identifier : String) : String :=
  "POLICY#" ++ policy_type.value ++ "#" ++ identifier

/-- Python's `int(x)` on a rational value: truncation toward zero (used for
`int(monthly_token_limit * 0.8)`; the source computes this on IEEE floats,
whose rounding is not modelled). -/
def truncToInt (q : ℚ) : Int :=
  if q < 0 then ⌈q⌉ else ⌊q⌋

/-- Modelled from the spec: the input validation performed by the policy
model (`models.py` — `QuotaPolicy` / `EnforcementMode` — is imported by
`quota_policies.py` but is not present under `src/`).  Spec §4.5:
"Validation (applies to create and update): `monthly_token_limit ≥ 0`; if
provided, `daily_token_limit > 0` and `monthly_cost_limit > 0`;
`enforcement_mode` must be one of the two recognized values — violations
raise `ValidationError`."  Fields a call does not supply are `none` and are
not checked. -/
def validate_policy_fields (monthly_token_limit : Option Int)
    (daily_token_limit : Option Int) (monthly_cost_limit : Option ℚ)
    (enforcement_mode : Option String) : Except AdminError Unit :=
  if (match monthly_token_limit with
      | some m => decide (m < 0)
      | none => false) then
    .error (.validationError "monthly_token_limit must be >= 0")
  else if (match daily_token_limit with
      | some d => decide (¬ 0 < d)
      | none => false) then
    .error (.validationError "daily_token_limit must be > 0")
  else if (match monthly_cost_limit with
      | some c => decide (¬ 0 < c)
      | none => false) then
    .error (.validationError "monthly_cost_limit must be > 0")
  else if (match enforcement_mode with
      | some mode => decide (mode ≠ "alert") && decide (mode ≠ "block")
      | none => false) then
    .error (.validationError "enforcement_mode must be alert or block")
  else
    .ok ()

/-- Method `QuotaPolicyManager.create_policy`.  Normalizes a Default-scope
identifier to `"default"`, auto-derives missing warning thresholds as
80%/90% of the monthly limit, builds the `QuotaPolicy` record (validated per
`validate_policy_fields`, the spec-modelled validation of the missing policy
model — placed up front since the intervening normalization and threshold
derivation do not touch the validated fields), and writes it conditioned on
`attribute_not_exists(pk)`: an existing record raises
`PolicyAlreadyExistsError`.  Returns the updated table and the created
record.  `enforcement_mode` is the enum's string value (default
`"alert"`). -/
def create_policy (store : PolicyTable) (policy_type : PolicyType)
    (identifier : String) (monthly_token_limit : Int)
    (daily_token_limit : Option Int) (monthly_cost_limit : Option ℚ)
    (warning_threshold_80 warning_threshold_90 : Option Int)
    (enforcement_mode : String) (enabled : Bool) (created_by : Option String)
    (now : String) : Except AdminError (PolicyTable × QuotaPolicyRec) :=
  match validate_policy_fields (some monthly_token_limit) daily_token_limit
      monthly_cost_limit (some enforcement_mode) with
  | .error e => .error e
  | .ok _ =>
      let identifier :=
        if policy_type = PolicyType.default ∧ identifier ≠ "default" then "default"
        else identifier
      let warning_threshold_80 :=
        match warning_threshold_80 with
        | none => truncToInt ((monthly_token_limit : ℚ) * 0.8)
        | some w => w
      let warning_threshold_90 :=
        match warning_threshold_90 with
        | none => truncToInt ((monthly_token_limit : ℚ) * 0.9)
        | some w => w
      let policy : QuotaPolicyRec :=
        { policy_type := policy_type
          identifier := identifier
          monthly_token_limit := monthly_token_limit
          daily_token_limit := daily_token_limit
          monthly_cost_limit := monthly_cost_limit
          warning_threshold_80 := warning_threshold_80
          warning_threshold_90 := warning_threshold_90
          enforcement_mode := enforcement_mode
          enabled := enabled
          created_at := now
          updated_at := now
          created_by := created_by }
      let pk := make_pk policy_type identifier
      match store pk with
      | some _ =>
          .error (.policyAlreadyExists
            ("Policy already exists for " ++ policy_type.value ++ ":" ++ identifier))
      | none => .ok (fun k => if k = pk then some policy else store k, policy)

/-- Method `QuotaPolicyManager.get_policy`: a keyed read under the raw (not
normalized) partition key.  (The source converts a `ClientError` into
`QuotaPolicyError`; the pure table model cannot fail.) -/
def manager_get_policy (store : PolicyTable) (policy_type : PolicyType)
    (identifier : String) : Option QuotaPolicyRec :=
  store (make_pk policy_type identifier)

/-- Method `QuotaPolicyManager.update_policy`.  Validation per
`validate_policy_fields` on the supplied fields (spec-modelled, see there).
Raises `PolicyNotFoundError` when no record exists under the raw key (the
source reads via `get_policy` and then updates conditioned on
`attribute_exists(pk)`; in this sequential model the two reads of the same
table coincide, so they are collapsed into one lookup).  Applies exactly the
supplied fields, always refreshes `updated_at`, and re-derives a warning
threshold from a newly supplied `monthly_token_limit` only when that
threshold is not itself supplied.  Returns the updated table and the new
record (`ReturnValues="ALL_NEW"`). -/
def update_policy (store : PolicyTable) (policy_type : PolicyType)
    (identifier : String) (monthly_token_limit daily_token_limit : Option Int)
    (monthly_cost_limit : Option ℚ)
    (warning_threshold_80 warning_threshold_90 : Option Int)
    (enforcement_mode : Option String) (enabled : Option Bool)
    (now : String) : Except AdminError (PolicyTable × QuotaPolicyRec) :=
  match validate_policy_fields monthly_token_limit daily_token_limit
      monthly_cost_limit enforcement_mode with
  | .error e => .error e
  | .ok _ =>
      let pk := make_pk policy_type identifier
      match store pk with
      | none =>
          .error (.policyNotFound
            ("Policy not found for " ++ policy_type.value ++ ":" ++ identifier))
      | some existing =>
          let warning_threshold_80 :=
            match monthly_token_limit, warning_threshold_80 with
            | some m, none => some (truncToInt ((m : ℚ) * 0.8))
            | _, w => w
          let warning_threshold_90 :=
            match monthly_token_limit, warning_threshold_90 with
            | some m, none => some (truncToInt ((m : ℚ) * 0.9))
            | _, w => w
          let updated : QuotaPolicyRec :=
            { existing with
              updated_at := now
              monthly_token_limit :=
                monthly_token_limit.getD existing.monthly_token_limit
              daily_token_limit :=
                match daily_token_limit with
                | some d => some d
                | none => existing.daily_token_limit
              monthly_cost_limit :=
                match monthly_cost_limit with
                | some c => some c
                | none => existing.monthly_cost_limit
              warning_threshold_80 :=
                warning_threshold_80.getD existing.warning_threshold_80
              warning_threshold_90 :=
                warning_threshold_90.getD existing.warning_threshold_90
              enforcement_mode :=
                enforcement_mode.getD existing.enforcement_mode
              enabled := enabled.getD existing.enabled }
          .ok (fun k => if k = pk then some updated else store k, updated)

/-- Method `QuotaPolicyManager.delete_policy`: keyed delete under the raw key,
returning whether a record existed (`"Attributes" in response`). -/
def delete_policy (store : PolicyTable) (policy_type : PolicyType)
    (identifier : String) : PolicyTable × Bool :=
  let pk := make_pk policy_type identifier
  match store pk with
  | some _ => (fun k => if k = pk then none else store k, true)
  | none => (store, false)

/-- Whether an administration result is a raised `ValidationError`. -/
def is_validation_error {α : Type} : Except AdminError α → Bool
  | .error (.validationError _) => true
  | _ => false

/-- Whether an administration result is a raised `PolicyNotFoundError`. -/
def is_policy_not_found {α : Type} : Except AdminError α → Bool
  | .error (.policyNotFound _) => true
  | _ => false

/-! ## Helper lemmas -/

theorem most_restrictive_mem (p : Policy) (ps : List Policy) :
    most_restrictive p ps ∈ p :: ps := by
  induction ps generalizing p with
  | nil => simp [most_restrictive]
  | cons q qs ih =>
      show most_restrictive
        (if q.monthly_token_limit < p.monthly_token_limit then q else p) qs ∈ p :: q :: qs
      by_cases hq : q.monthly_token_limit < p.monthly_token_limit
      · rw [if_pos hq]
        rcases List.mem_cons.mp (ih q) with h | h
        · simp [h]
        · simp [List.mem_cons]
          tauto
      · rw [if_neg hq]
        rcases List.mem_cons.mp (ih p) with h | h
        · simp [h]
        · simp [List.mem_cons]
          tauto

theorem most_restrictive_le (p : Policy) (ps : List Policy) :
    ∀ q ∈ p :: ps,
      (most_restrictive p ps).monthly_token_limit ≤ q.monthly_token_limit := by
  induction ps generalizing p with
  | nil =>
      intro q hq
      rw [List.mem_singleton.mp hq]
      simp [most_restrictive]
  | cons r rs ih =>
      intro q hq
      show (most_restrictive
        (if r.monthly_token_limit < p.monthly_token_limit then r else p)
          rs).monthly_token_limit ≤ q.monthly_token_limit
      by_cases hr : r.monthly_token_limit < p.monthly_token_limit
      · rw [if_pos hr]
        rcases List.mem_cons.mp hq with h | h
        · subst h
          exact le_trans (ih r r (List.mem_cons_self r rs)) (le_of_lt hr)
        · exact ih r q h
      · rw [if_neg hr]
        rcases List.mem_cons.mp hq with h | h
        · subst h
          exact ih q q (List.mem_cons_self q rs)
        · rcases List.mem_cons.mp h with h1 | h1
          · subst h1
            exact le_trans (ih p p (List.mem_cons_self p rs)) (le_of_not_lt hr)
          · exact ih p q (List.mem_cons_of_mem p h1)

theorem resolve_no_enabled_user (fetch : String → Except String (Option PolicyItem))
    (email : String) (groups : List String)
    (huser : ∀ p, get_policy fetch "user" email = some p → p.enabled = false) :
    resolve_quota_for_user fetch email groups = resolve_without_user fetch groups := by
  unfold resolve_quota_for_user
  cases h : get_policy fetch "user" email with
  | none => rfl
  | some p => simp [huser p h]

theorem monthly_breached_iff (ml : Int) (mt : ℚ) :
    monthly_breached ml mt = true ↔ 0 < ml ∧ (ml : ℚ) ≤ mt := by
  simp [monthly_breached, ge_iff_le, gt_iff_lt]

theorem daily_breached_iff (dl : Option Int) (dt : ℚ) :
    daily_breached dl dt = true ↔ ∃ d, dl = some d ∧ 0 < d ∧ (d : ℚ) ≤ dt := by
  cases dl with
  | none => simp [daily_breached]
  | some d =>
      simp only [daily_breached, Bool.and_eq_true, decide_eq_true_eq,
        Option.some.injEq, ge_iff_le, gt_iff_lt]
      constructor
      · rintro ⟨⟨_, hpos⟩, hle⟩
        exact ⟨d, rfl, hpos, hle⟩
      · rintro ⟨e, he, hpos, hle⟩
        cases he
        exact ⟨⟨hpos.ne', hpos⟩, hle⟩

theorem cost_breached_iff (cl : Option ℚ) (ec : ℚ) :
    cost_breached cl ec = true ↔ ∃ c, cl = some c ∧ 0 < c ∧ c ≤ ec := by
  cases cl with
  | none => simp [cost_breached]
  | some c =>
      simp only [cost_breached, Bool.and_eq_true, decide_eq_true_eq,
        Option.some.injEq, ge_iff_le, gt_iff_lt]
      constructor
      · rintro ⟨⟨_, hpos⟩, hle⟩
        exact ⟨c, rfl, hpos, hle⟩
      · rintro ⟨e, he, hpos, hle⟩
        cases he
        exact ⟨⟨hpos.ne', hpos⟩, hle⟩

theorem lambda_handler_resolved
    (policyFetch : String → Except String (Option PolicyItem))
    (usageFetch : Except String (Option UsageItem))
    (overrideFetch : Except String (Option UnblockItem))
    (email : String) (groups : List String) (now : Int) (current_date : String)
    (policy : Policy)
    (hemail : ¬ email = "")
    (hres : resolve_quota_for_user policyFetch email groups = some policy) :
    lambda_handler policyFetch usageFetch overrideFetch email groups now current_date =
      decide_with_policy policy (get_unblock_status overrideFetch now)
        (get_user_usage usageFetch current_date) := by
  unfold lambda_handler
  rw [if_neg hemail, hres]

theorem decide_with_policy_block_eval (policy : Policy)
    (unblock_status : UnblockStatus) (usage : Usage)
    (hunb : unblock_status.is_unblocked = false)
    (hmode : policy.enforcement_mode = "block") :
    decide_with_policy policy unblock_status usage =
      if monthly_breached policy.monthly_token_limit usage.total_tokens then
        { statusCode := 200, allowed := false, reason := "monthly_exceeded",
          enforcement_mode := some "block" }
      else if daily_breached policy.daily_token_limit usage.daily_tokens then
        { statusCode := 200, allowed := false, reason := "daily_exceeded",
          enforcement_mode := some "block" }
      else if cost_breached policy.monthly_cost_limit usage.estimated_cost then
        { statusCode := 200, allowed := false, reason := "cost_exceeded",
          enforcement_mode := some "block" }
      else
        { statusCode := 200, allowed := true, reason := "within_quota",
          enforcement_mode := some "block" } := by
  unfold decide_with_policy
  rw [hunb, hmode]
  simp

theorem get_policy_of_store_error (fetch : String → Except String (Option PolicyItem))
    (t i : String)
    (hfail : ∀ pk, ∃ e, fetch pk = Except.error e) :
    get_policy fetch t i = none := by
  obtain ⟨e, he⟩ := hfail ("POLICY#" ++ t ++ "#" ++ i)
  show (match fetch ("POLICY#" ++ t ++ "#" ++ i) with
    | .error _ => none
    | .ok none => none
    | .ok (some item) => some _) = none
  rw [he]

theorem resolve_of_policy_store_error
    (fetch : String → Except String (Option PolicyItem))
    (email : String) (groups : List String)
    (hfail : ∀ pk, ∃ e, fetch pk = Except.error e) :
    resolve_quota_for_user fetch email groups = none := by
  unfold resolve_quota_for_user
  rw [get_policy_of_store_error fetch "user" email hfail]
  unfold resolve_without_user
  have hgp : group_policies fetch groups = [] := by
    unfold group_policies
    have h : groups.filterMap (fun g => get_policy fetch "group" g) = [] :=
      List.filterMap_eq_nil_iff.mpr (fun g _ => get_policy_of_store_error fetch "group" g hfail)
    rw [h]
    rfl
  rw [hgp, get_policy_of_store_error fetch "default" "default" hfail]

theorem validate_monthly_negative (m : Int) (d : Option Int) (c : Option ℚ)
    (mo : Option String) (h : m < 0) :
    is_validation_error (validate_policy_fields (some m) d c mo) = true := by
  unfold validate_policy_fields
  rw [if_pos (by simpa using h)]
  rfl

theorem validate_daily_nonpositive (a : Option Int) (dv : Int) (c : Option ℚ)
    (mo : Option String) (h : ¬ 0 < dv) :
    is_validation_error (validate_policy_fields a (some dv) c mo) = true := by
  unfold validate_policy_fields
  split
  · rfl
  · rw [if_pos (by simpa using h)]
    rfl

theorem validate_cost_nonpositive (a : Option Int) (d : Option Int) (cv : ℚ)
    (mo : Option String) (h : ¬ 0 < cv) :
    is_validation_error (validate_policy_fields a d (some cv) mo) = true := by
  unfold validate_policy_fields
  split
  · rfl
  · split
    · rfl
    · rw [if_pos (by simpa using h)]
      rfl

theorem validate_mode_unrecognized (a : Option Int) (d : Option Int) (c : Option ℚ)
    (ms : String) (h1 : ms ≠ "alert") (h2 : ms ≠ "block") :
    is_validation_error (validate_policy_fields a d c (some ms)) = true := by
  unfold validate_policy_fields
  split
  · rfl
  · split
    · rfl
    · split
      · rfl
      · rw [if_pos (by simp [h1, h2])]
        rfl

theorem create_policy_validation_propagates (store : PolicyTable)
    (t : PolicyType) (id : String) (m : Int) (d : Option Int) (c : Option ℚ)
    (w80 w90 : Option Int) (mode : String) (en : Bool) (cb : Option String)
    (now : String)
    (h : is_validation_error (validate_policy_fields (some m) d c (some mode)) = true) :
    is_validation_error (create_policy store t id m d c w80 w90 mode en cb now) = true := by
  unfold create_policy
  split
  · rename_i e hv
    rw [hv] at h
    cases e <;> simp_all [is_validation_error]
  · rename_i u hv
    rw [hv] at h
    simp [is_validation_error] at h

theorem update_policy_validation_propagates (store : PolicyTable)
    (t : PolicyType) (id : String) (m d : Option Int) (c : Option ℚ)
    (w80 w90 : Option Int) (mode : Option String) (en : Option Bool)
    (now : String)
    (h : is_validation_error (validate_policy_fields m d c mode) = true) :
    is_validation_error (update_policy store t id m d c w80 w90 mode en now) = true := by
  unfold update_policy
  split
  · rename_i e hv
    rw [hv] at h
    cases e <;> simp_all [is_validation_error]
  · rename_i u hv
    rw [hv] at h
    simp [is_validation_error] at h

theorem make_pk_default_injective_identifier (id2 : String)
    (h : id2 ≠ "default") :
    make_pk PolicyType.default id2 ≠ make_pk PolicyType.default "default" := by
  intro he
  apply h
  unfold make_pk PolicyType.value at he
  have hd := congrArg String.data he
  simp only [String.data_append] at hd
  exact String.ext (List.append_cancel_left hd)

/-! ## Concrete data used by witnesses and counterexamples -/

/-- A stored group-policy item with the given identifier and monthly limit
(block mode, enabled, no daily or cost limit). -/
def group_policy_item (name : String) (limit : Int) : PolicyItem :=
  { policy_type := some "group", identifier := some name,
    monthly_token_limit := some limit, daily_token_limit := none,
    monthly_cost_limit := none, warning_threshold_80 := some 0,
    warning_threshold_90 := some 0, enforcement_mode := some "block",
    enabled := some true }

/-- The normalized `Policy` that `get_policy` builds from
`group_policy_item name limit`. -/
def group_policy (name : String) (limit : Int) : Policy :=
  { policy_type := some "group", identifier := some name,
    monthly_token_limit := limit, daily_token_limit := none,
    monthly_cost_limit := none, warning_threshold_80 := 0,
    warning_threshold_90 := 0, enforcement_mode := "block", enabled := true }

/-- A policy store holding two enabled group policies: `team-a` with monthly
limit 1000 and `team-b` with monthly limit 500. -/
def two_group_fetch : String → Except String (Option PolicyItem) := fun pk =>
  if pk = "POLICY#group#team-a" then Except.ok (some (group_policy_item "team-a" 1000))
  else if pk = "POLICY#group#team-b" then Except.ok (some (group_policy_item "team-b" 500))
  else Except.ok none

/-- A policy store holding two enabled group policies: `free-team` with
monthly limit 0 (the data model's "unlimited") and `team-b` with monthly
limit 500. -/
def zero_group_fetch : String → Except String (Option PolicyItem) := fun pk =>
  if pk = "POLICY#group#free-team" then Except.ok (some (group_policy_item "free-team" 0))
  else if pk = "POLICY#group#team-b" then Except.ok (some (group_policy_item "team-b" 500))
  else Except.ok none

/-- A stored user-policy item in alert mode with monthly limit 10. -/
def alert_user_item : PolicyItem :=
  { policy_type := some "user", identifier := some "user@example.com",
    monthly_token_limit := some 10, daily_token_limit := none,
    monthly_cost_limit := none, warning_threshold_80 := some 8,
    warning_threshold_90 := some 9, enforcement_mode := some "alert",
    enabled := some true }

/-- A policy store holding only `alert_user_item` for `user@example.com`. -/
def alert_user_fetch : String → Except String (Option PolicyItem) := fun pk =>
  if pk = "POLICY#user#user@example.com" then Except.ok (some alert_user_item)
  else Except.ok none

/-- The normalized `Policy` that `get_policy` builds from `alert_user_item`. -/
def alert_user_policy : Policy :=
  { policy_type := some "user", identifier := some "user@example.com",
    monthly_token_limit := 10, daily_token_limit := none,
    monthly_cost_limit := none, warning_threshold_80 := 8,
    warning_threshold_90 := 9, enforcement_mode := "alert", enabled := true }

/-- A stored user-policy item in block mode with monthly limit 100. -/
def block_user_item : PolicyItem :=
  { policy_type := some "user", identifier := some "user@example.com",
    monthly_token_limit := some 100, daily_token_limit := none,
    monthly_cost_limit := none, warning_threshold_80 := some 80,
    warning_threshold_90 := some 90, enforcement_mode := some "block",
    enabled := some true }

/-- A policy store holding only `block_user_item` for `user@example.com`. -/
def block_user_fetch : String → Except String (Option PolicyItem) := fun pk =>
  if pk = "POLICY#user#user@example.com" then Except.ok (some block_user_item)
  else Except.ok none

/-- The normalized `Policy` that `get_policy` builds from `block_user_item`. -/
def block_user_policy : Policy :=
  { policy_type := some "user", identifier := some "user@example.com",
    monthly_token_limit := 100, daily_token_limit := none,
    monthly_cost_limit := none, warning_threshold_80 := 80,
    warning_threshold_90 := 90, enforcement_mode := "block", enabled := true }

/-- A usage record whose total is far above `alert_user_policy`'s limit. -/
def huge_usage_item : UsageItem :=
  { total_tokens := some 1000000, daily_tokens := some 1000000,
    daily_date := some "2025-06-15", input_tokens := some 0,
    output_tokens := some 0, cache_tokens := some 0,
    estimated_cost := some 0 }

/-- A usage record at exactly 100 total tokens (today's date). -/
def usage_item_at_100 : UsageItem :=
  { total_tokens := some 100, daily_tokens := some 1,
    daily_date := some "2025-06-15", input_tokens := some 0,
    output_tokens := some 0, cache_tokens := some 0,
    estimated_cost := some 0 }

/-- A usage record at exactly 99 total tokens (today's date). -/
def usage_item_at_99 : UsageItem :=
  { total_tokens := some 99, daily_tokens := some 1,
    daily_date := some "2025-06-15", input_tokens := some 0,
    output_tokens := some 0, cache_tokens := some 0,
    estimated_cost := some 0 }

/-- A usage record at 150 total tokens (today's date). -/
def usage_item_at_150 : UsageItem :=
  { total_tokens := some 150, daily_tokens := some 10,
    daily_date := some "2025-06-15", input_tokens := some 0,
    output_tokens := some 0, cache_tokens := some 0,
    estimated_cost := some 0 }

/-- A usage record whose `daily_date` is the day before 2025-06-15. -/
def stale_usage_item : UsageItem :=
  { total_tokens := some 42, daily_tokens := some 7,
    daily_date := some "2025-06-14", input_tokens := some 1,
    output_tokens := some 2, cache_tokens := some 3,
    estimated_cost := some 4 }

/-- An override record with no `expires_at` value. -/
def no_expiry_override_item : UnblockItem :=
  { expires_at := none, unblocked_by := some "admin@example.com",
    unblocked_at := some "2025-06-01T00:00:00Z", reason := some "incident",
    duration_type := some "permanent" }

/-- An empty `QuotaPolicies` table. -/
def empty_policy_table : PolicyTable := fun _ => none

/-- A stored Default-scope record under the normalized key. -/
def demo_default_rec : QuotaPolicyRec :=
  { policy_type := PolicyType.default, identifier := "default",
    monthly_token_limit := 100, daily_token_limit := none,
    monthly_cost_limit := none, warning_threshold_80 := 80,
    warning_threshold_90 := 90, enforcement_mode := "alert", enabled := true,
    created_at := "t0", updated_at := "t0", created_by := none }

/-- A table holding exactly the normalized Default record. -/
def demo_default_store : PolicyTable :=
  fun pk => if pk = "POLICY#default#default" then some demo_default_rec else none

/-- The record `create_policy` builds for a Default-scope create with
monthly limit 100, explicit thresholds 80/90, alert mode, at time `"t0"`. -/
def created_default_rec : QuotaPolicyRec :=
  { policy_type := PolicyType.default, identifier := "default",
    monthly_token_limit := 100, daily_token_limit := none,
    monthly_cost_limit := none, warning_threshold_80 := 80,
    warning_threshold_90 := 90, enforcement_mode := "alert", enabled := true,
    created_at := "t0", updated_at := "t0", created_by := none }

/-- The table produced by that create on `empty_policy_table`. -/
def created_default_store : PolicyTable :=
  fun k => if k = make_pk PolicyType.default "default" then some created_default_rec
    else empty_policy_table k

/-! ## Claims -/

/-- C1 (counterexample): with the Policy Store unreachable (every read of the
policies table raises), `decide()` returns `reason = "no_policy"`, not the
claimed `"check_failed"`: `get_policy` catches the store error itself and
returns `None`, so the resolver sees no policy at any scope and the
top-level `check_failed` handler is never reached. -/
theorem policy_store_error_yields_no_policy_not_check_failed :
    (lambda_handler (fun _ => Except.error "Policy Store unreachable")
        (Except.ok none) (Except.ok none) "user@example.com" [] 0
        "2025-06-15").reason = "no_policy" ∧
    (lambda_handler (fun _ => Except.error "Policy Store unreachable")
        (Except.ok none) (Except.ok none) "user@example.com" [] 0
        "2025-06-15").reason ≠ "check_failed" := by
  constructor
  · rfl
  · decide

/-- C1 (amended): errors raised while querying the stores are caught inside
the accessor functions and never propagate to the caller; in particular,
when every Policy Store read fails, `decide()` still fails open, returning
the full `allowed = true, reason = "no_policy"` response (the underlying
error is only logged; the top-level `check_failed` conversion applies only
to errors raised outside the three store accessors). -/
theorem decide_fail_open_on_policy_store_error
    (policyFetch : String → Except String (Option PolicyItem))
    (usageFetch : Except String (Option UsageItem))
    (overrideFetch : Except String (Option UnblockItem))
    (email : String) (groups : List String) (now : Int) (current_date : String)
    (hemail : ¬ email = "")
    (hfail : ∀ pk, ∃ e, policyFetch pk = Except.error e) :
    lambda_handler policyFetch usageFetch overrideFetch email groups now current_date =
      { statusCode := 200, allowed := true, reason := "no_policy",
        enforcement_mode := none } := by
  unfold lambda_handler
  rw [if_neg hemail, resolve_of_policy_store_error policyFetch email groups hfail]

/-- Witness for `decide_fail_open_on_policy_store_error` at a concrete
failing store. -/
theorem decide_fail_open_on_policy_store_error_witness :
    lambda_handler (fun _ => Except.error "timeout") (Except.ok none)
      (Except.ok none) "someone@example.com" ["eng"] 5 "2025-06-15" =
      { statusCode := 200, allowed := true, reason := "no_policy",
        enforcement_mode := none } :=
  decide_fail_open_on_policy_store_error (fun _ => Except.error "timeout")
    (Except.ok none) (Except.ok none) "someone@example.com" ["eng"] 5
    "2025-06-15" (by decide) (fun pk => ⟨"timeout", rfl⟩)

/-- C5: if the resolved policy has `enforcement_mode = "alert"` (and no
active unblock override applies), `decide()` returns
`allowed = true, reason = "within_quota"` for every usage value — alert-only
mode never blocks. -/
theorem alert_mode_always_allows
    (policyFetch : String → Except String (Option PolicyItem))
    (usageFetch : Except String (Option UsageItem))
    (overrideFetch : Except String (Option UnblockItem))
    (email : String) (groups : List String) (now : Int) (current_date : String)
    (policy : Policy)
    (hemail : ¬ email = "")
    (hres : resolve_quota_for_user policyFetch email groups = some policy)
    (hmode : policy.enforcement_mode = "alert")
    (hunb : (get_unblock_status overrideFetch now).is_unblocked = false) :
    (lambda_handler policyFetch usageFetch overrideFetch email groups now
        current_date).allowed = true ∧
    (lambda_handler policyFetch usageFetch overrideFetch email groups now
        current_date).reason = "within_quota" := by
  rw [lambda_handler_resolved policyFetch usageFetch overrideFetch email groups
    now current_date policy hemail hres]
  unfold decide_with_policy
  rw [hunb, hmode]
  simp

/-- Witness for `alert_mode_always_allows`: an alert-mode user policy with a
tiny limit and usage far beyond it still yields `within_quota`. -/
theorem alert_mode_always_allows_witness :
    (lambda_handler alert_user_fetch
        (Except.ok (some huge_usage_item)) (Except.ok none)
        "user@example.com" [] 0 "2025-06-15").allowed = true ∧
    (lambda_handler alert_user_fetch
        (Except.ok (some huge_usage_item)) (Except.ok none)
        "user@example.com" [] 0 "2025-06-15").reason = "within_quota" :=
  alert_mode_always_allows alert_user_fetch (Except.ok (some huge_usage_item))
    (Except.ok none) "user@example.com" [] 0 "2025-06-15" alert_user_policy
    (by decide) rfl rfl rfl

/-- C8: the Usage Reader applies the lazy daily rollover — if the stored
record's `daily_date` differs from the current UTC date, the returned
`daily_tokens` is 0 (the reader is a pure function of the fetched record: it
issues no write) — and when no current-month record exists it synthesizes
the zero-valued record, all of whose token counts and estimated cost are
0. -/
theorem usage_reader_rollover_and_zero_default
    (fetch : Except String (Option UsageItem)) (current_date : String) :
    (∀ item, fetch = Except.ok (some item) →
      item.daily_date ≠ some current_date →
      (get_user_usage fetch current_date).daily_tokens = 0) ∧
    (fetch = Except.ok none →
      get_user_usage fetch current_date = zero_usage current_date ∧
      (zero_usage current_date).total_tokens = 0 ∧
      (zero_usage current_date).daily_tokens = 0 ∧
      (zero_usage current_date).input_tokens = 0 ∧
      (zero_usage current_date).output_tokens = 0 ∧
      (zero_usage current_date).cache_tokens = 0 ∧
      (zero_usage current_date).estimated_cost = 0) := by
  constructor
  · intro item hf hd
    subst hf
    unfold get_user_usage
    simp [hd]
  · intro hf
    subst hf
    exact ⟨rfl, rfl, rfl, rfl, rfl, rfl, rfl⟩

/-- Witness for `usage_reader_rollover_and_zero_default`: a record carrying
yesterday's `daily_date` reads back with `daily_tokens = 0`; a missing
record reads back as the zero record. -/
theorem usage_reader_rollover_witness :
    (get_user_usage (Except.ok (some stale_usage_item))
        "2025-06-15").daily_tokens = 0 ∧
    get_user_usage (Except.ok none) "2025-06-15" = zero_usage "2025-06-15" :=
  ⟨(usage_reader_rollover_and_zero_default (Except.ok (some stale_usage_item))
      "2025-06-15").1 stale_usage_item rfl (by decide),
   ((usage_reader_rollover_and_zero_default (Except.ok none) "2025-06-15").2
      rfl).1⟩

/-- C10: an override record with no `expires_at` value never expires — the
Override Checker returns `is_unblocked = true` — and `decide()` then returns
`allowed = true, reason = "unblocked"` for any resolved policy and any
usage. -/
theorem override_without_expiry_unblocks
    (policyFetch : String → Except String (Option PolicyItem))
    (usageFetch : Except String (Option UsageItem))
    (overrideFetch : Except String (Option UnblockItem))
    (email : String) (groups : List String) (now : Int) (current_date : String)
    (policy : Policy) (item : UnblockItem)
    (hemail : ¬ email = "")
    (hres : resolve_quota_for_user policyFetch email groups = some policy)
    (hov : overrideFetch = Except.ok (some item))
    (hexp : item.expires_at = none) :
    (get_unblock_status overrideFetch now).is_unblocked = true ∧
    (lambda_handler policyFetch usageFetch overrideFetch email groups now
        current_date).allowed = true ∧
    (lambda_handler policyFetch usageFetch overrideFetch email groups now
        current_date).reason = "unblocked" := by
  subst hov
  have hst : (get_unblock_status (Except.ok (some item)) now).is_unblocked = true := by
    unfold get_unblock_status
    simp [hexp]
  refine ⟨hst, ?_, ?_⟩ <;>
  · rw [lambda_handler_resolved policyFetch usageFetch (Except.ok (some item))
      email groups now current_date policy hemail hres]
    unfold decide_with_policy
    rw [if_pos hst]

/-- Witness for `override_without_expiry_unblocks`: a grant with no expiry
unblocks even with usage far over a block-mode limit. -/
theorem override_without_expiry_unblocks_witness :
    (get_unblock_status (Except.ok (some no_expiry_override_item))
        999999).is_unblocked = true ∧
    (lambda_handler block_user_fetch (Except.ok (some huge_usage_item))
        (Except.ok (some no_expiry_override_item)) "user@example.com" []
        999999 "2025-06-15").allowed = true ∧
    (lambda_handler block_user_fetch (Except.ok (some huge_usage_item))
        (Except.ok (some no_expiry_override_item)) "user@example.com" []
        999999 "2025-06-15").reason = "unblocked" :=
  override_without_expiry_unblocks block_user_fetch
    (Except.ok (some huge_usage_item)) (Except.ok (some no_expiry_override_item))
    "user@example.com" [] 999999 "2025-06-15" block_user_policy
    no_expiry_override_item (by decide) rfl rfl rfl

/-- C2: resolver precedence.  (1) An enabled User-scoped policy for the
identifier is returned outright.  (2) Absent one, among the enabled
Group-scoped policies of the given groups the resolver returns a member
whose `monthly_token_limit` is least (so with limits 1000 and 500 it is the
500 one).  (3) With no enabled group policy either, the enabled
Default-scoped policy is returned if present, else none. -/
theorem resolve_precedence (fetch : String → Except String (Option PolicyItem))
    (email : String) (groups : List String) :
    (∀ p, get_policy fetch "user" email = some p → p.enabled = true →
      resolve_quota_for_user fetch email groups = some p) ∧
    ((∀ p, get_policy fetch "user" email = some p → p.enabled = false) →
      (∀ g gs, group_policies fetch groups = g :: gs →
        ∃ p, resolve_quota_for_user fetch email groups = some p ∧
          p ∈ group_policies fetch groups ∧
          ∀ q ∈ group_policies fetch groups,
            p.monthly_token_limit ≤ q.monthly_token_limit) ∧
      (group_policies fetch groups = [] →
        resolve_quota_for_user fetch email groups =
          match get_policy fetch "default" "default" with
          | some d => if d.enabled then some d else none
          | none => none)) := by
  refine ⟨?_, fun huser => ⟨?_, ?_⟩⟩
  · intro p hp he
    unfold resolve_quota_for_user
    rw [hp]
    simp [he]
  · intro g gs hg
    rw [resolve_no_enabled_user fetch email groups huser]
    refine ⟨most_restrictive g gs, ?_, ?_, ?_⟩
    · unfold resolve_without_user
      rw [hg]
    · rw [hg]
      exact most_restrictive_mem g gs
    · intro q hq
      rw [hg] at hq
      exact most_restrictive_le g gs q hq
  · intro hg
    rw [resolve_no_enabled_user fetch email groups huser]
    unfold resolve_without_user
    rw [hg]

/-- Witness for `resolve_precedence`: with enabled group policies of limits
1000 (`team-a`) and 500 (`team-b`) and no user policy, the resolver yields
the 500-limit policy. -/
theorem resolve_precedence_witness :
    resolve_quota_for_user two_group_fetch "user@example.com"
      ["team-a", "team-b"] = some (group_policy "team-b" 500) := by
  have hg : group_policies two_group_fetch ["team-a", "team-b"] =
      [group_policy "team-a" 1000, group_policy "team-b" 500] := rfl
  have huser : ∀ p, get_policy two_group_fetch "user" "user@example.com" = some p →
      p.enabled = false := by
    intro p h
    exact Option.noConfusion h
  obtain ⟨p, hp, hmem, hmin⟩ :=
    ((resolve_precedence two_group_fetch "user@example.com"
      ["team-a", "team-b"]).2 huser).1 (group_policy "team-a" 1000)
      [group_policy "team-b" 500] hg
  rw [hg] at hmem hmin
  rcases List.mem_cons.mp hmem with h | h
  · have h500 := hmin (group_policy "team-b" 500) (by simp)
    rw [h] at h500
    exact absurd h500 (by decide)
  · rw [List.mem_singleton.mp h] at hp
    exact hp

/-- C9: with no enabled User-scoped policy, a Group-scoped enabled policy
with `monthly_token_limit = 0` (the value the data model defines as
unlimited) is selected as "most restrictive": the resolver returns a group
policy with limit 0 in preference to every group policy with a positive
limit. -/
theorem resolve_prefers_zero_limit_group
    (fetch : String → Except String (Option PolicyItem))
    (email : String) (groups : List String) (p0 : Policy)
    (huser : ∀ p, get_policy fetch "user" email = some p → p.enabled = false)
    (hmem : p0 ∈ group_policies fetch groups)
    (hzero : p0.monthly_token_limit = 0)
    (hnonneg : ∀ q ∈ group_policies fetch groups, 0 ≤ q.monthly_token_limit) :
    ∃ p, resolve_quota_for_user fetch email groups = some p ∧
      p ∈ group_policies fetch groups ∧ p.monthly_token_limit = 0 := by
  rw [resolve_no_enabled_user fetch email groups huser]
  cases hg : group_policies fetch groups with
  | nil =>
      rw [hg] at hmem
      exact absurd hmem (List.not_mem_nil p0)
  | cons g gs =>
      refine ⟨most_restrictive g gs, ?_, ?_, ?_⟩
      · unfold resolve_without_user
        rw [hg]
      · exact most_restrictive_mem g gs
      · rw [hg] at hmem
        have h1 := most_restrictive_le g gs p0 hmem
        have h2 := hnonneg (most_restrictive g gs) (by rw [hg]; exact most_restrictive_mem g gs)
        omega

/-- Witness for `resolve_prefers_zero_limit_group`: the zero-limit
`free-team` policy wins over the 500-limit `team-b` policy. -/
theorem resolve_prefers_zero_limit_group_witness :
    resolve_quota_for_user zero_group_fetch "user@example.com"
      ["free-team", "team-b"] = some (group_policy "free-team" 0) := by
  obtain ⟨p, hp, hmem, hz⟩ :=
    resolve_prefers_zero_limit_group zero_group_fetch "user@example.com"
      ["free-team", "team-b"] (group_policy "free-team" 0)
      (fun p h => Option.noConfusion h) (by decide) rfl (by decide)
  have hg : group_policies zero_group_fetch ["free-team", "team-b"] =
      [group_policy "free-team" 0, group_policy "team-b" 500] := rfl
  rw [hg] at hmem
  rcases List.mem_cons.mp hmem with h | h
  · rw [h] at hp
    exact hp
  · rw [List.mem_singleton.mp h] at hz
    exact absurd hz (by decide)

/-- C4: under a resolved Block-mode policy with no active override,
`decide()` evaluates the limits in the fixed order monthly tokens → daily
tokens → monthly cost, each with an inclusive `≥` comparison, stops at the
first breach and returns its reason; the monthly check applies only when
`monthly_token_limit > 0` and the daily/cost checks only when the
corresponding optional limit is set and > 0; with no breach the decision is
`allowed = true, reason = "within_quota"`. -/
theorem block_mode_check_order
    (policyFetch : String → Except String (Option PolicyItem))
    (usageFetch : Except String (Option UsageItem))
    (overrideFetch : Except String (Option UnblockItem))
    (email : String) (groups : List String) (now : Int) (current_date : String)
    (policy : Policy)
    (hemail : ¬ email = "")
    (hres : resolve_quota_for_user policyFetch email groups = some policy)
    (hmode : policy.enforcement_mode = "block")
    (hunb : (get_unblock_status overrideFetch now).is_unblocked = false) :
    ((0 < policy.monthly_token_limit ∧ (policy.monthly_token_limit : ℚ) ≤
        (get_user_usage usageFetch current_date).total_tokens) →
      lambda_handler policyFetch usageFetch overrideFetch email groups now current_date =
        { statusCode := 200, allowed := false, reason := "monthly_exceeded",
          enforcement_mode := some "block" }) ∧
    (¬ (0 < policy.monthly_token_limit ∧ (policy.monthly_token_limit : ℚ) ≤
        (get_user_usage usageFetch current_date).total_tokens) →
      (∃ d, policy.daily_token_limit = some d ∧ 0 < d ∧
        (d : ℚ) ≤ (get_user_usage usageFetch current_date).daily_tokens) →
      lambda_handler policyFetch usageFetch overrideFetch email groups now current_date =
        { statusCode := 200, allowed := false, reason := "daily_exceeded",
          enforcement_mode := some "block" }) ∧
    (¬ (0 < policy.monthly_token_limit ∧ (policy.monthly_token_limit : ℚ) ≤
        (get_user_usage usageFetch current_date).total_tokens) →
      ¬ (∃ d, policy.daily_token_limit = some d ∧ 0 < d ∧
        (d : ℚ) ≤ (get_user_usage usageFetch current_date).daily_tokens) →
      (∃ c, policy.monthly_cost_limit = some c ∧ 0 < c ∧
        c ≤ (get_user_usage usageFetch current_date).estimated_cost) →
      lambda_handler policyFetch usageFetch overrideFetch email groups now current_date =
        { statusCode := 200, allowed := false, reason := "cost_exceeded",
          enforcement_mode := some "block" }) ∧
    (¬ (0 < policy.monthly_token_limit ∧ (policy.monthly_token_limit : ℚ) ≤
        (get_user_usage usageFetch current_date).total_tokens) →
      ¬ (∃ d, policy.daily_token_limit = some d ∧ 0 < d ∧
        (d : ℚ) ≤ (get_user_usage usageFetch current_date).daily_tokens) →
      ¬ (∃ c, policy.monthly_cost_limit = some c ∧ 0 < c ∧
        c ≤ (get_user_usage usageFetch current_date).estimated_cost) →
      lambda_handler policyFetch usageFetch overrideFetch email groups now current_date =
        { statusCode := 200, allowed := true, reason := "within_quota",
          enforcement_mode := some "block" }) := by
  have hL := lambda_handler_resolved policyFetch usageFetch overrideFetch email
    groups now current_date policy hemail hres
  rw [decide_with_policy_block_eval policy (get_unblock_status overrideFetch now)
    (get_user_usage usageFetch current_date) hunb hmode] at hL
  refine ⟨?_, ?_, ?_, ?_⟩
  · intro hPm
    rw [hL, if_pos ((monthly_breached_iff _ _).mpr hPm)]
  · intro hPm hPd
    rw [hL, if_neg (fun h => hPm ((monthly_breached_iff _ _).mp h)),
      if_pos ((daily_breached_iff _ _).mpr hPd)]
  · intro hPm hPd hPc
    rw [hL, if_neg (fun h => hPm ((monthly_breached_iff _ _).mp h)),
      if_neg (fun h => hPd ((daily_breached_iff _ _).mp h)),
      if_pos ((cost_breached_iff _ _).mpr hPc)]
  · intro hPm hPd hPc
    rw [hL, if_neg (fun h => hPm ((monthly_breached_iff _ _).mp h)),
      if_neg (fun h => hPd ((daily_breached_iff _ _).mp h)),
      if_neg (fun h => hPc ((cost_breached_iff _ _).mp h))]

/-- Witness for `block_mode_check_order`: a block-mode monthly limit of 100
with total usage 150 is blocked with `monthly_exceeded`. -/
theorem block_mode_check_order_witness :
    lambda_handler block_user_fetch (Except.ok (some usage_item_at_150))
      (Except.ok none) "user@example.com" [] 0 "2025-06-15" =
      { statusCode := 200, allowed := false, reason := "monthly_exceeded",
        enforcement_mode := some "block" } :=
  (block_mode_check_order block_user_fetch (Except.ok (some usage_item_at_150))
    (Except.ok none) "user@example.com" [] 0 "2025-06-15" block_user_policy
    (by decide) rfl rfl rfl).1
    ⟨by decide, by norm_num [get_user_usage, usage_item_at_150, block_user_policy]⟩

/-- C3: under a resolved Block-mode policy with `monthly_token_limit > 0`
and no active override, the monthly threshold comparison is inclusive: total
usage equal to the limit is blocked with `monthly_exceeded`, while total
usage equal to limit − 1 is allowed with `within_quota` when no other limit
is breached. -/
theorem monthly_boundary_inclusive
    (policyFetch : String → Except String (Option PolicyItem))
    (usageFetch : Except String (Option UsageItem))
    (overrideFetch : Except String (Option UnblockItem))
    (email : String) (groups : List String) (now : Int) (current_date : String)
    (policy : Policy)
    (hemail : ¬ email = "")
    (hres : resolve_quota_for_user policyFetch email groups = some policy)
    (hmode : policy.enforcement_mode = "block")
    (hml : 0 < policy.monthly_token_limit)
    (hunb : (get_unblock_status overrideFetch now).is_unblocked = false) :
    ((get_user_usage usageFetch current_date).total_tokens =
        (policy.monthly_token_limit : ℚ) →
      (lambda_handler policyFetch usageFetch overrideFetch email groups now
          current_date).allowed = false ∧
      (lambda_handler policyFetch usageFetch overrideFetch email groups now
          current_date).reason = "monthly_exceeded") ∧
    ((get_user_usage usageFetch current_date).total_tokens =
        (policy.monthly_token_limit : ℚ) - 1 →
      daily_breached policy.daily_token_limit
        (get_user_usage usageFetch current_date).daily_tokens = false →
      cost_breached policy.monthly_cost_limit
        (get_user_usage usageFetch current_date).estimated_cost = false →
      (lambda_handler policyFetch usageFetch overrideFetch email groups now
          current_date).allowed = true ∧
      (lambda_handler policyFetch usageFetch overrideFetch email groups now
          current_date).reason = "within_quota") := by
  have hL := lambda_handler_resolved policyFetch usageFetch overrideFetch email
    groups now current_date policy hemail hres
  rw [decide_with_policy_block_eval policy (get_unblock_status overrideFetch now)
    (get_user_usage usageFetch current_date) hunb hmode] at hL
  constructor
  · intro hmt
    rw [hL, if_pos ((monthly_breached_iff _ _).mpr ⟨hml, le_of_eq hmt.symm⟩)]
    exact ⟨rfl, rfl⟩
  · intro hmt hd hc
    have hnm : ¬ monthly_breached policy.monthly_token_limit
        (get_user_usage usageFetch current_date).total_tokens = true := by
      intro h
      have h2 := ((monthly_breached_iff _ _).mp h).2
      rw [hmt] at h2
      linarith
    rw [hL, if_neg hnm, if_neg (by simp [hd]), if_neg (by simp [hc])]
    exact ⟨rfl, rfl⟩

/-- Witness for `monthly_boundary_inclusive`: limit 100, usage 100 blocks;
usage 99 allows. -/
theorem monthly_boundary_inclusive_witness :
    ((lambda_handler block_user_fetch (Except.ok (some usage_item_at_100))
        (Except.ok none) "user@example.com" [] 0 "2025-06-15").allowed = false ∧
      (lambda_handler block_user_fetch (Except.ok (some usage_item_at_100))
        (Except.ok none) "user@example.com" [] 0 "2025-06-15").reason =
        "monthly_exceeded") ∧
    ((lambda_handler block_user_fetch (Except.ok (some usage_item_at_99))
        (Except.ok none) "user@example.com" [] 0 "2025-06-15").allowed = true ∧
      (lambda_handler block_user_fetch (Except.ok (some usage_item_at_99))
        (Except.ok none) "user@example.com" [] 0 "2025-06-15").reason =
        "within_quota") :=
  ⟨(monthly_boundary_inclusive block_user_fetch (Except.ok (some usage_item_at_100))
      (Except.ok none) "user@example.com" [] 0 "2025-06-15" block_user_policy
      (by decide) rfl rfl (by decide) rfl).1
      (by norm_num [get_user_usage, usage_item_at_100, block_user_policy]),
   (monthly_boundary_inclusive block_user_fetch (Except.ok (some usage_item_at_99))
      (Except.ok none) "user@example.com" [] 0 "2025-06-15" block_user_policy
      (by decide) rfl rfl (by decide) rfl).2
      (by norm_num [get_user_usage, usage_item_at_99, block_user_policy]) rfl rfl⟩

/-- C6 (spec-modelled): `create` and `update` validate their inputs and
raise `ValidationError` when `monthly_token_limit < 0`, when a supplied
`daily_token_limit` is not > 0, when a supplied `monthly_cost_limit` is not
> 0, or when the enforcement mode is not one of the two recognized values
(`"alert"`, `"block"`).  The validation itself lives in the policy model
(`models.py`), which is absent from `src/`; it is modelled from the spec as
`validate_policy_fields`. -/
theorem admin_validation_raises
    (store : PolicyTable) (t : PolicyType) (id : String)
    (m : Int) (d : Option Int) (c : Option ℚ) (w80 w90 : Option Int)
    (mode : String) (en : Bool) (cb : Option String) (now : String)
    (um ud : Option Int) (uc : Option ℚ) (uw80 uw90 : Option Int)
    (umode : Option String) (uen : Option Bool) :
    (m < 0 → is_validation_error
        (create_policy store t id m d c w80 w90 mode en cb now) = true) ∧
    (∀ dv, d = some dv → ¬ 0 < dv → is_validation_error
        (create_policy store t id m d c w80 w90 mode en cb now) = true) ∧
    (∀ cv, c = some cv → ¬ 0 < cv → is_validation_error
        (create_policy store t id m d c w80 w90 mode en cb now) = true) ∧
    (mode ≠ "alert" → mode ≠ "block" → is_validation_error
        (create_policy store t id m d c w80 w90 mode en cb now) = true) ∧
    (∀ mv, um = some mv → mv < 0 → is_validation_error
        (update_policy store t id um ud uc uw80 uw90 umode uen now) = true) ∧
    (∀ dv, ud = some dv → ¬ 0 < dv → is_validation_error
        (update_policy store t id um ud uc uw80 uw90 umode uen now) = true) ∧
    (∀ cv, uc = some cv → ¬ 0 < cv → is_validation_error
        (update_policy store t id um ud uc uw80 uw90 umode uen now) = true) ∧
    (∀ ms, umode = some ms → ms ≠ "alert" → ms ≠ "block" → is_validation_error
        (update_policy store t id um ud uc uw80 uw90 umode uen now) = true) := by
  refine ⟨?_, ?_, ?_, ?_, ?_, ?_, ?_, ?_⟩
  · intro h
    exact create_policy_validation_propagates store t id m d c w80 w90 mode en
      cb now (validate_monthly_negative m d c (some mode) h)
  · intro dv hdv h
    subst hdv
    exact create_policy_validation_propagates store t id m (some dv) c w80 w90
      mode en cb now (validate_daily_nonpositive (some m) dv c (some mode) h)
  · intro cv hcv h
    subst hcv
    exact create_policy_validation_propagates store t id m d (some cv) w80 w90
      mode en cb now (validate_cost_nonpositive (some m) d cv (some mode) h)
  · intro h1 h2
    exact create_policy_validation_propagates store t id m d c w80 w90 mode en
      cb now (validate_mode_unrecognized (some m) d c mode h1 h2)
  · intro mv hmv h
    subst hmv
    exact update_policy_validation_propagates store t id (some mv) ud uc uw80
      uw90 umode uen now (validate_monthly_negative mv ud uc umode h)
  · intro dv hdv h
    subst hdv
    exact update_policy_validation_propagates store t id um (some dv) uc uw80
      uw90 umode uen now (validate_daily_nonpositive um dv uc umode h)
  · intro cv hcv h
    subst hcv
    exact update_policy_validation_propagates store t id um ud (some cv) uw80
      uw90 umode uen now (validate_cost_nonpositive um ud cv umode h)
  · intro ms hms h1 h2
    subst hms
    exact update_policy_validation_propagates store t id um ud uc uw80 uw90
      (some ms) uen now (validate_mode_unrecognized um ud uc ms h1 h2)

/-- Witness for `admin_validation_raises`: a create with
`monthly_token_limit = -1` and an update supplying `daily_token_limit = 0`
both raise `ValidationError`. -/
theorem admin_validation_raises_witness :
    is_validation_error (create_policy empty_policy_table PolicyType.user
      "user@example.com" (-1) none none none none "alert" true none "t0") = true ∧
    is_validation_error (update_policy demo_default_store PolicyType.default
      "default" none (some 0) none none none none none "t1") = true :=
  ⟨(admin_validation_raises empty_policy_table PolicyType.user "user@example.com"
      (-1) none none none none "alert" true none "t0" none (some 0) none none
      none none none).1 (by decide),
   (admin_validation_raises empty_policy_table PolicyType.default "default"
      0 none none none none "alert" true none "t1" none (some 0) none none
      none none none).2.2.2.2.2.1 0 rfl (by decide)⟩

/-- C7 (counterexample): the Default-scope identifier is not normalized by
`get`, `update` or `delete` — only `create` normalizes it.  With the single
Default record stored under the normalized key, `update(Default, "custom")`
forms the key `POLICY#default#custom` and raises `PolicyNotFoundError`,
while `update(Default, "default")` succeeds; `get(Default, "custom")` sees
nothing.  Caller inputs therefore do not all address the same record. -/
theorem default_scope_not_normalized_counterexample :
    make_pk PolicyType.default "custom" ≠ make_pk PolicyType.default "default" ∧
    is_policy_not_found (update_policy demo_default_store PolicyType.default
      "custom" (some 5) none none (some 4) (some 4) none none "t1") = true ∧
    is_policy_not_found (update_policy demo_default_store PolicyType.default
      "default" (some 5) none none (some 4) (some 4) none none "t1") = false ∧
    manager_get_policy demo_default_store PolicyType.default "custom" = none ∧
    manager_get_policy demo_default_store PolicyType.default "default" =
      some demo_default_rec :=
  ⟨by decide, rfl, rfl, rfl, rfl⟩

/-- C7 (amended): `create_policy` normalizes a Default-scope identifier to
the fixed constant `"default"` — the created record carries identifier
`"default"` and is stored under the normalized key — but the read path
(`_make_pk`, used by get/update/delete) uses the caller-supplied identifier
verbatim, so a Default-scope read with any other identifier is unaffected by
the create and addresses a different key. -/
theorem create_normalizes_default_identifier
    (store : PolicyTable) (id : String) (m : Int) (d : Option Int) (c : Option ℚ)
    (w80 w90 : Option Int) (mode : String) (en : Bool) (cb : Option String)
    (now : String) (store2 : PolicyTable) (p : QuotaPolicyRec) (id2 : String)
    (hok : create_policy store PolicyType.default id m d c w80 w90 mode en cb now =
      Except.ok (store2, p))
    (hid2 : id2 ≠ "default") :
    p.identifier = "default" ∧
    store2 (make_pk PolicyType.default "default") = some p ∧
    manager_get_policy store2 PolicyType.default id2 =
      manager_get_policy store PolicyType.default id2 := by
  unfold create_policy at hok
  cases hv : validate_policy_fields (some m) d c (some mode) with
  | error e =>
      rw [hv] at hok
      exact Except.noConfusion hok
  | ok u =>
      rw [hv] at hok
      have hnorm : (if True ∧ id ≠ "default" then "default" else id) = "default" := by
        by_cases hid : id = "default" <;> simp [hid]
      simp only [hnorm] at hok
      cases hs : store (make_pk PolicyType.default "default") with
      | some q =>
          rw [hs] at hok
          exact Except.noConfusion hok
      | none =>
          rw [hs] at hok
          injection hok with hpair
          rw [Prod.mk.injEq] at hpair
          obtain ⟨hs2, hp⟩ := hpair
          subst hp
          subst hs2
          refine ⟨rfl, ?_, ?_⟩
          · simp
          · unfold manager_get_policy
            exact if_neg (make_pk_default_injective_identifier id2 hid2)

/-- Witness for `create_normalizes_default_identifier`: creating a Default
policy with caller identifier `"custom"` stores the record under the
normalized key, and a subsequent Default-scope read with identifier
`"custom"` still sees the original (empty) table. -/
theorem create_normalizes_default_identifier_witness :
    created_default_rec.identifier = "default" ∧
    created_default_store (make_pk PolicyType.default "default") =
      some created_default_rec ∧
    manager_get_policy created_default_store PolicyType.default "custom" =
      manager_get_policy empty_policy_table PolicyType.default "custom" :=
  create_normalizes_default_identifier empty_policy_table "custom" 100 none none
    (some 80) (some 90) "alert" true none "t0" created_default_store
    created_default_rec "custom" rfl (by decide)

end Quota
